import Mathlib

/-!
Shallow embedding of the slackauth package (slackButton.go).

The package is a thin HTTP wrapper around a Slack OAuth exchange:
construction-time validation and template loading (New, configureButton,
readTemplate), an HTTP server with two routes (runServer), the two
handlers (authorizationHandler, buttonHandler), and a capacity-1
notification channel drained by a worker goroutine (Run / OnAuth).

Modelling conventions:
- File reading plus template parsing (readTemplate = ioutil.ReadFile +
  template.Parse) is abstracted as an environment oracle
  env : String -> Except String GoTemplate; an error value covers both an
  unreadable file and an unparseable template.
- Template execution (html/template Execute) is abstracted as an oracle
  exec : GoTemplate -> TplData -> Except String String.  A failing
  execution is modelled as failing before writing any bytes.  One
  concrete instance, substExec, implements literal placeholder
  substitution; the contextual auto-escaping of html/template is
  abstracted to the identity.
- The http.ResponseWriter is modelled by Resp: WriteHeader sets the
  status only if none is committed yet (Go ignores superfluous
  WriteHeader calls), and any body write commits status 200 if no status
  was set (Go net/http semantics).
- The fields auths (the channel), callback and api of the Go struct
  slackAuth are modelled outside the structure: api is passed to
  authorizationHandler explicitly, and the channel plus callback live in
  the notifier state machine (NotifierState / notifierStep), whose work
  event is one iteration of the worker loop started by Run.
-/

/-- OAuth Result returned by the exchange: access token and team metadata. -/
structure OAuthResponse where
  accessToken : String
  teamName : String
  teamID : String
deriving Repr, DecidableEq, Inhabited

/-- Compiled template handle; only its source text is retained, execution is
an oracle parameter. -/
structure GoTemplate where
  src : String
deriving Repr, DecidableEq, Inhabited

/-- Data passed to template execution: either an OAuth response pointer
(possibly nil) or a string map, matching the two uses in the source. -/
inductive TplData where
  | oauth (resp : Option OAuthResponse)
  | strmap (m : List (String × String))
deriving Repr, DecidableEq

/-- Outcome of GetOAuthResponse: success with a response, or failure carrying
the possibly-nil response pointer returned alongside the error. -/
inductive ExchangeOutcome where
  | ok (resp : OAuthResponse)
  | fail (resp : Option OAuthResponse) (msg : String)
deriving Repr, DecidableEq

/-- The OAuth exchange capability (the api field of the Go struct). -/
abbrev OAuthAPI := String → String → String → Bool → ExchangeOutcome

/-- Template execution oracle (html/template Execute). -/
abbrev TplExec := GoTemplate → TplData → Except String String

/-- Environment oracle for readTemplate: ReadFile plus Parse. -/
abbrev TplEnv := String → Except String GoTemplate

/-- Model of http.ResponseWriter: committed status (none while the header is
not yet written) and accumulated body. -/
structure Resp where
  status : Option Nat
  body : String
deriving Repr, DecidableEq

/-- Fresh response writer. -/
def Resp.empty : Resp := { status := none, body := "" }

/-- WriteHeader: commits the status code; Go ignores superfluous calls after
the first commit. -/
def writeHeader (w : Resp) (code : Nat) : Resp :=
  match w.status with
  | none => { w with status := some code }
  | some _ => w

/-- Body write: commits status 200 if no status was set yet, then appends. -/
def write (w : Resp) (s : String) : Resp :=
  { status := some (w.status.getD 200), body := w.body ++ s }

/-- Status the client observes: Go sends 200 when the handler finishes
without an explicit WriteHeader. -/
def effectiveStatus (w : Resp) : Nat := w.status.getD 200

/-- HTTP request: only the query parameters matter here. -/
structure Request where
  query : List (String × String)
deriving Repr, DecidableEq

/-- FormValue: first value for the key, or the empty string when absent. -/
def Request.FormValue (r : Request) (key : String) : String :=
  match r.query.lookup key with
  | some v => v
  | none => ""

/-- Options passed to New (slackButton.go lines 128-153). -/
structure Options where
  addr : String
  clientID : String
  clientSecret : String
  successTpl : String
  errorTpl : String
  debug : Bool
  certFile : String
  keyFile : String
  buttonTpl : String
  scopes : List String
deriving Repr, DecidableEq

/-- The slackAuth service state built by New.  The channel, callback and api
fields of the Go struct are modelled separately (see module comment). -/
structure slackAuth where
  clientID : String
  clientSecret : String
  addr : String
  certFile : String
  keyFile : String
  successTpl : GoTemplate
  errorTpl : GoTemplate
  debug : Bool
  buttonTpl : Option GoTemplate
  scopes : String
deriving Repr, DecidableEq, Inhabited

/-- Error kinds New can return: the missing-field message, a template
load or parse error (with the underlying message), or the missing-scopes
message from configureButton. -/
inductive NewError where
  | invalidConfig
  | tplError (msg : String)
  | missingScopes
deriving Repr, DecidableEq

/-- readTemplate (slackButton.go lines 298-305): ReadFile then Parse, both
abstracted into the environment oracle. -/
def readTemplate (env : TplEnv) (file : String) : Except String GoTemplate :=
  env file

/-- configureButton (slackButton.go lines 191-207): when a button template
path is set, load it first, then require a non-empty scopes list, then store
the comma-joined scopes and the compiled template. -/
def configureButton (env : TplEnv) (s : slackAuth) (buttonTpl : String)
    (scopes : List String) : Except NewError slackAuth :=
  if 0 < buttonTpl.length then
    match readTemplate env buttonTpl with
    | Except.error e => Except.error (NewError.tplError e)
    | Except.ok t =>
      if scopes.length = 0 then Except.error NewError.missingScopes
      else Except.ok { s with scopes := String.intercalate "," scopes, buttonTpl := some t }
  else Except.ok s

/-- Capacity of the auths channel created by New:
make(chan *slack.OAuthResponse, 1) (slackButton.go line 180). -/
def authsChanCapacity : Nat := 1

/-- New (slackButton.go lines 156-189): validate the three required fields,
load the success template, load the error template, build the service, then
configureButton. -/
def New (env : TplEnv) (opts : Options) : Except NewError slackAuth :=
  if opts.addr = "" ∨ opts.clientID = "" ∨ opts.clientSecret = "" then
    Except.error NewError.invalidConfig
  else
    match readTemplate env opts.successTpl with
    | Except.error e => Except.error (NewError.tplError e)
    | Except.ok successTpl =>
      match readTemplate env opts.errorTpl with
      | Except.error e => Except.error (NewError.tplError e)
      | Except.ok errorTpl =>
        configureButton env
          { clientID := opts.clientID
            clientSecret := opts.clientSecret
            addr := opts.addr
            certFile := opts.certFile
            keyFile := opts.keyFile
            successTpl := successTpl
            errorTpl := errorTpl
            debug := opts.debug
            buttonTpl := none
            scopes := "" }
          opts.buttonTpl opts.scopes

/-- Identifiers for the two handlers registered on the mux. -/
inductive HandlerId where
  | button
  | auth
deriving Repr, DecidableEq

/-- Static shape of the server built by runServer. -/
structure ServerConfig where
  routes : List (String × HandlerId)
  readTimeoutSeconds : Nat
  writeTimeoutSeconds : Nat
  addr : String
  useTLS : Bool
deriving Repr, DecidableEq

/-- runServer (slackButton.go lines 245-262): register both handlers, build
the server with fixed timeouts, and serve with TLS exactly when both the
certificate file and the key file are set. -/
def runServer (s : slackAuth) : ServerConfig :=
  let srv : ServerConfig :=
    { routes := [("/", HandlerId.button), ("/auth", HandlerId.auth)]
      readTimeoutSeconds := 1
      writeTimeoutSeconds := 3
      addr := s.addr
      useTLS := false }
  if s.certFile ≠ "" ∧ s.keyFile ≠ "" then { srv with useTLS := true }
  else srv

/-- Execute a template into the writer: on success the output is written,
on failure the handler calls WriteHeader 500 (modelled as failing before
writing any bytes). -/
def execResp (w : Resp) (r : Except String String) : Resp :=
  match r with
  | Except.ok out => write w out
  | Except.error _ => writeHeader w 500

/-- Result of one callback-route request: the response and the value pushed
onto the auths channel (none when nothing was sent). -/
structure AuthOutcome where
  resp : Resp
  sent : Option OAuthResponse
deriving Repr, DecidableEq

/-- authorizationHandler (slackButton.go lines 264-285): read the code query
parameter, run the exchange; on failure WriteHeader 401 and render the error
template with the possibly-nil response, sending nothing; on success render
the success template and push the response onto the channel. -/
def authorizationHandler (api : OAuthAPI) (exec : TplExec) (s : slackAuth)
    (r : Request) : AuthOutcome :=
  let code := Request.FormValue r "code"
  match api s.clientID s.clientSecret code s.debug with
  | ExchangeOutcome.fail presp _ =>
    { resp := execResp (writeHeader Resp.empty 401) (exec s.errorTpl (TplData.oauth presp))
      sent := none }
  | ExchangeOutcome.ok resp =>
    { resp := execResp Resp.empty (exec s.successTpl (TplData.oauth (some resp)))
      sent := some resp }

/-- Outcome of the button route: either a response, or a panic when Execute
is called on a nil template pointer. -/
inductive HandlerOutcome where
  | panicked
  | responded (w : Resp)
deriving Repr, DecidableEq

/-- buttonHandler (slackButton.go lines 287-296): render the button template
with the Scopes / ClientId string map.  When no button template was
configured the Go code calls Execute on a nil pointer, which dereferences
nil and panics; that branch is modelled as panicked. -/
def buttonHandler (exec : TplExec) (s : slackAuth) : HandlerOutcome :=
  match s.buttonTpl with
  | none => HandlerOutcome.panicked
  | some t =>
    HandlerOutcome.responded
      (execResp Resp.empty
        (exec t (TplData.strmap [("Scopes", s.scopes), ("ClientId", s.clientID)])))

/-- Fuel-bounded replacement of every occurrence of pat by rep, scanning left
to right; fuel at least the input length suffices since every step consumes
at least one character. -/
def replaceAllAux (pat rep : List Char) : Nat → List Char → List Char
  | _, [] => []
  | 0, s => s
  | Nat.succ fuel, c :: cs =>
    if pat ≠ [] ∧ pat.isPrefixOf (c :: cs) then
      rep ++ replaceAllAux pat rep fuel ((c :: cs).drop pat.length)
    else
      c :: replaceAllAux pat rep fuel cs

/-- Replace every occurrence of pat in s by rep. -/
def replaceAll (s pat rep : String) : String :=
  String.mk (replaceAllAux pat.data rep.data s.data.length s.data)

/-- Substitute every placeholder of the form \x7b\x7b.Key\x7d\x7d by the
value bound to Key in the map. -/
def substMap (m : List (String × String)) (src : String) : String :=
  m.foldl (fun acc kv => replaceAll acc ("\x7b\x7b." ++ kv.fst ++ "\x7d\x7d") kv.snd) src

/-- Concrete template execution: literal placeholder substitution for string
maps; templates applied to an OAuth response are reproduced verbatim (the
test templates reference no field).  Contextual escaping is abstracted to
the identity. -/
def substExec (t : GoTemplate) (d : TplData) : Except String String :=
  match d with
  | TplData.strmap m => Except.ok (substMap m t.src)
  | TplData.oauth _ => Except.ok t.src

/-- State of the notifier: the channel content (send id, response), the
currently registered callback (none models a nil callback), the dispatch log
(callback id, send id), the ids dropped with a warning, the ids processed by
the worker in order, and the ids accepted into the channel in order. -/
structure NotifierState where
  queue : List (Nat × OAuthResponse)
  callback : Option Nat
  delivered : List (Nat × Nat)
  warned : List Nat
  processed : List Nat
  accepted : List Nat
deriving Repr, DecidableEq

/-- Events of the notifier machine: a handler sending on the channel, an
OnAuth registration, and one iteration of the worker loop in Run. -/
inductive NotifierEv where
  | send (id : Nat) (r : OAuthResponse)
  | onAuth (cb : Option Nat)
  | work
deriving Repr, DecidableEq

/-- Initial notifier state: empty channel, nil callback. -/
def initNotifier : NotifierState :=
  { queue := [], callback := none, delivered := [], warned := [], processed := [], accepted := [] }

/-- One step of the notifier machine.  none means the event is not enabled:
a send on a full channel blocks the producing handler (the result is never
dropped), and the worker blocks on an empty channel.  A work step dispatches
the head to the currently registered callback, or logs a warning when none
is registered, matching the loop in Run (slackButton.go lines 210-218) and
the send at line 284. -/
def notifierStep (st : NotifierState) (e : NotifierEv) : Option NotifierState :=
  match e with
  | NotifierEv.send n r =>
    if st.queue.length < authsChanCapacity then
      some { st with queue := st.queue ++ [(n, r)], accepted := st.accepted ++ [n] }
    else none
  | NotifierEv.onAuth cb => some { st with callback := cb }
  | NotifierEv.work =>
    match st.queue with
    | [] => none
    | (n, _) :: rest =>
      match st.callback with
      | some c =>
        some { st with queue := rest, delivered := st.delivered ++ [(c, n)],
                       processed := st.processed ++ [n] }
      | none =>
        some { st with queue := rest, warned := st.warned ++ [n],
                       processed := st.processed ++ [n] }

/-- Run a trace of notifier events; none when some event was not enabled. -/
def notifierRun (st : NotifierState) : List NotifierEv → Option NotifierState
  | [] => some st
  | e :: es =>
    match notifierStep st e with
    | some st2 => notifierRun st2 es
    | none => none

deriving instance DecidableEq for Except

/-- Invariant of the notifier machine: the channel never exceeds its
capacity, the accepted ids are exactly the processed ids followed by the
queued ids, the delivered and warned ids each form a subsequence of the
processed ids, and every processed id is accounted for by exactly its
deliveries plus its warnings. -/
def NotifierInv (st : NotifierState) : Prop :=
  st.queue.length ≤ authsChanCapacity ∧
  st.accepted = st.processed ++ st.queue.map Prod.fst ∧
  (st.delivered.map Prod.snd).Sublist st.processed ∧
  st.warned.Sublist st.processed ∧
  ∀ i : Nat, st.processed.count i = (st.delivered.map Prod.snd).count i + st.warned.count i

/-- Concrete button template, as in the TestSlackButton test fixture. -/
def tplSlackButton : GoTemplate :=
  GoTemplate.mk "ADD ME: <a href=\"https://slack.com/oauth/authorize?scope=\x7b\x7b.Scopes\x7d\x7d&client_id=\x7b\x7b.ClientId\x7d\x7d\"> SLACK BUTTON </a>"

/-- Environment in which every path loads the button template. -/
def envB : TplEnv := fun _ => Except.ok tplSlackButton

/-- Options of the TestSlackButton scenario. -/
def optsB : Options :=
  { addr := ":8080", clientID := "client-id", clientSecret := "bar", successTpl := "valid.txt"
    errorTpl := "valid.txt", debug := false, certFile := "", keyFile := ""
    buttonTpl := "valid.txt", scopes := ["bot", "commands"] }

/-- The service New builds from envB and optsB. -/
def svcB : slackAuth :=
  { clientID := "client-id", clientSecret := "bar", addr := ":8080", certFile := "", keyFile := ""
    successTpl := tplSlackButton, errorTpl := tplSlackButton, debug := false
    buttonTpl := some tplSlackButton, scopes := "bot,commands" }

/-- Environment that fails to load every path. -/
def envFailAll : TplEnv := fun _ => Except.error "read failed"

/-- Options with an empty address but every other field populated. -/
def optsC2 : Options :=
  { addr := "", clientID := "id", clientSecret := "sec", successTpl := "s.html"
    errorTpl := "e.html", debug := true, certFile := "c.pem", keyFile := "k.pem"
    buttonTpl := "b.html", scopes := ["bot"] }

/-- Environment in which only the button template path fails to load. -/
def env3 : TplEnv := fun p =>
  if p = "button.html" then Except.error "open button.html: no such file"
  else Except.ok (GoTemplate.mk "ok")

/-- Options with every required field set, a button template path, and an
empty scopes list. -/
def opts3 : Options :=
  { addr := ":8080", clientID := "foo", clientSecret := "bar", successTpl := "s.html"
    errorTpl := "e.html", debug := false, certFile := "", keyFile := ""
    buttonTpl := "button.html", scopes := [] }

/-- Options identical to opts3 except that the button template loads (env3
only fails on button.html). -/
def opts3b : Options :=
  { addr := ":8080", clientID := "foo", clientSecret := "bar", successTpl := "s.html"
    errorTpl := "e.html", debug := false, certFile := "", keyFile := ""
    buttonTpl := "other.html", scopes := [] }

/-- Service with both TLS files configured. -/
def svcTLS : slackAuth :=
  { clientID := "a", clientSecret := "b", addr := ":443", certFile := "cert.pem"
    keyFile := "key.pem", successTpl := GoTemplate.mk "s", errorTpl := GoTemplate.mk "e"
    debug := false, buttonTpl := none, scopes := "" }

/-- Service with a certificate file but no key file. -/
def svcPlain : slackAuth :=
  { clientID := "a", clientSecret := "b", addr := ":80", certFile := "cert.pem"
    keyFile := "", successTpl := GoTemplate.mk "s", errorTpl := GoTemplate.mk "e"
    debug := false, buttonTpl := none, scopes := "" }

/-- Service constructed without a button template path. -/
def svcNoButton : slackAuth :=
  { clientID := "aaaa", clientSecret := "bbbb", addr := ":8989", certFile := "", keyFile := ""
    successTpl := GoTemplate.mk "<h1>Hello</h1>", errorTpl := GoTemplate.mk "<h1>:(</h1>"
    debug := true, buttonTpl := none, scopes := "" }

/-- Exchange mock from the test suite: the code invalid fails, any other
code succeeds with access token foo. -/
def apiMock : OAuthAPI := fun _ _ code _ =>
  if code = "invalid" then ExchangeOutcome.fail none "invalid code"
  else ExchangeOutcome.ok { accessToken := "foo", teamName := "", teamID := "" }

/-- Template execution that reproduces the template source verbatim. -/
def verbatimExec : TplExec := fun t _ => Except.ok t.src

/-- Template execution that always fails. -/
def failExec : TplExec := fun _ _ => Except.error "render failed"

/-- Request carrying a valid authorization code. -/
def reqOk : Request := { query := [("code", "fooo")] }

/-- Request carrying the invalid authorization code. -/
def reqBad : Request := { query := [("code", "invalid")] }

/-- Concrete OAuth responses used in the notifier traces. -/
def respA : OAuthResponse := { accessToken := "tokA", teamName := "teamA", teamID := "TA" }

/-- Second concrete OAuth response for the notifier traces. -/
def respB : OAuthResponse := { accessToken := "tokB", teamName := "teamB", teamID := "TB" }

/-- Trace: a result is accepted and dispatched with no callback registered,
then a callback is registered and a second result is accepted. -/
def trC4 : List NotifierEv :=
  [NotifierEv.send 0 respA, NotifierEv.work, NotifierEv.onAuth (some 1), NotifierEv.send 1 respB]

/-- State reached by trC4 from the initial state. -/
def stC4 : NotifierState :=
  { queue := [(1, respB)], callback := some 1, delivered := [], warned := [0]
    processed := [0], accepted := [0, 1] }

/-- Trace: register a callback, accept and dispatch one result, accept a
second result. -/
def trC7 : List NotifierEv :=
  [NotifierEv.onAuth (some 5), NotifierEv.send 0 respA, NotifierEv.work, NotifierEv.send 1 respB]

/-- State reached by trC7 from the initial state. -/
def stC7 : NotifierState :=
  { queue := [(1, respB)], callback := some 5, delivered := [(5, 0)], warned := []
    processed := [0], accepted := [0, 1] }

/-- Page the button handler renders in the concrete test scenario. -/
def renderedButtonPage : String :=
  "ADD ME: <a href=\"https://slack.com/oauth/authorize?scope=bot,commands&client_id=client-id\"> SLACK BUTTON </a>"

/-- A nonempty string has positive length. -/
theorem strLengthPos (s : String) (h : s ≠ "") : 0 < s.length := by
  obtain ⟨data⟩ := s
  cases data with
  | nil => exact absurd rfl h
  | cons c cs => simp [String.length]

/-- Running a concatenated trace is running the pieces in sequence. -/
theorem notifierRun_append (st : NotifierState) (tr1 tr2 : List NotifierEv) :
    notifierRun st (tr1 ++ tr2) =
      (notifierRun st tr1).bind (fun s2 => notifierRun s2 tr2) := by
  induction tr1 generalizing st with
  | nil => simp [notifierRun]
  | cons e es ih =>
    simp only [List.cons_append, notifierRun]
    cases notifierStep st e with
    | none => simp
    | some st2 => simpa using ih st2

/-- The initial notifier state satisfies the invariant. -/
theorem notifierInv_init : NotifierInv initNotifier := by
  refine ⟨by simp [initNotifier, authsChanCapacity], by simp [initNotifier], ?_, ?_, ?_⟩ <;>
    simp [initNotifier]

/-- Every enabled step preserves the notifier invariant. -/
theorem notifierInv_step (st st2 : NotifierState) (e : NotifierEv)
    (hinv : NotifierInv st) (h : notifierStep st e = some st2) : NotifierInv st2 := by
  obtain ⟨hcap, hacc, hdel, hwarn, hcount⟩ := hinv
  cases e with
  | send n r =>
    simp only [notifierStep] at h
    by_cases hlen : st.queue.length < authsChanCapacity
    · rw [if_pos hlen] at h
      cases h
      refine ⟨?_, ?_, by simpa using hdel, by simpa using hwarn, by simpa using hcount⟩
      · simp only [authsChanCapacity] at hlen ⊢
        simp only [List.length_append, List.length_cons, List.length_nil]
        omega
      · simp [hacc, List.map_append]
    · rw [if_neg hlen] at h
      exact absurd h (by simp)
  | onAuth cb =>
    simp only [notifierStep] at h
    cases h
    exact ⟨hcap, hacc, hdel, hwarn, hcount⟩
  | work =>
    simp only [notifierStep] at h
    cases hq : st.queue with
    | nil => rw [hq] at h; exact absurd h (by simp)
    | cons p rest =>
      obtain ⟨n, r⟩ := p
      rw [hq] at h
      cases hcb : st.callback with
      | some c =>
        rw [hcb] at h
        cases h
        refine ⟨?_, ?_, ?_, ?_, ?_⟩
        · exact Nat.le_trans (by simp [hq] at hcap ⊢; omega) (Nat.le_refl _)
        · rw [hacc, hq]
          simp [List.append_assoc]
        · simpa [List.map_append] using List.Sublist.append hdel (List.Sublist.refl [n])
        · exact hwarn.trans (List.sublist_append_left _ _)
        · intro i
          simp [List.map_append, List.count_append, hcount i]
          omega
      | none =>
        rw [hcb] at h
        cases h
        refine ⟨?_, ?_, ?_, ?_, ?_⟩
        · simp [hq] at hcap ⊢; omega
        · rw [hacc, hq]
          simp [List.append_assoc]
        · exact hdel.trans (List.sublist_append_left _ _)
        · exact List.Sublist.append hwarn (List.Sublist.refl [n])
        · intro i
          simp [List.count_append, hcount i]
          omega

/-- Every state reached by a trace from an invariant state satisfies the
invariant. -/
theorem notifierInv_run (st st2 : NotifierState) (tr : List NotifierEv)
    (hinv : NotifierInv st) (h : notifierRun st tr = some st2) : NotifierInv st2 := by
  induction tr generalizing st with
  | nil => simp [notifierRun] at h; exact h ▸ hinv
  | cons e es ih =>
    simp only [notifierRun] at h
    cases hstep : notifierStep st e with
    | none => rw [hstep] at h; exact absurd h (by simp)
    | some stm =>
      rw [hstep] at h
      exact ih stm (notifierInv_step st stm e hinv hstep) h

/-- C2: whenever the address, the client id, or the client secret is empty,
New fails with the invalid-config error, for every template environment and
regardless of every other field. -/
theorem slackauth_C2 (env : TplEnv) (opts : Options)
    (h : opts.addr = "" ∨ opts.clientID = "" ∨ opts.clientSecret = "") :
    New env opts = Except.error NewError.invalidConfig := by
  simp only [New, if_pos h]

/-- Witness for C2 at a concrete configuration with an empty address, every
other field populated, and an environment that cannot load any template. -/
theorem slackauth_C2_witness :
    (optsC2.addr = "" ∨ optsC2.clientID = "" ∨ optsC2.clientSecret = "") ∧
    New envFailAll optsC2 = Except.error NewError.invalidConfig :=
  ⟨Or.inl rfl, slackauth_C2 envFailAll optsC2 (Or.inl rfl)⟩

/-- Counterexample to C3 as stated: a configuration with non-empty address,
client id and client secret, a button template path set, and an empty scopes
list on which New fails with the template load error rather than with the
missing-scopes error. -/
theorem slackauth_C3_counterexample :
    opts3.addr ≠ "" ∧ opts3.clientID ≠ "" ∧ opts3.clientSecret ≠ "" ∧
    opts3.buttonTpl ≠ "" ∧ opts3.scopes = [] ∧
    New env3 opts3 = Except.error (NewError.tplError "open button.html: no such file") ∧
    New env3 opts3 ≠ Except.error NewError.missingScopes := by
  decide

/-- C3 (amended): with non-empty address, client id and client secret, a
button template path set, an empty scopes list, and an environment that
loads the success, error and button template paths successfully, New fails
with the missing-scopes error. -/
theorem slackauth_C3 (env : TplEnv) (opts : Options)
    (ha : opts.addr ≠ "") (hb : opts.clientID ≠ "") (hc : opts.clientSecret ≠ "")
    (hbt : opts.buttonTpl ≠ "") (hs : opts.scopes = [])
    (h1 : ∃ t, readTemplate env opts.successTpl = Except.ok t)
    (h2 : ∃ t, readTemplate env opts.errorTpl = Except.ok t)
    (h3 : ∃ t, readTemplate env opts.buttonTpl = Except.ok t) :
    New env opts = Except.error NewError.missingScopes := by
  obtain ⟨t1, e1⟩ := h1
  obtain ⟨t2, e2⟩ := h2
  obtain ⟨t3, e3⟩ := h3
  have hor : ¬(opts.addr = "" ∨ opts.clientID = "" ∨ opts.clientSecret = "") := by
    simp [ha, hb, hc]
  have hlen : 0 < opts.buttonTpl.length := strLengthPos _ hbt
  simp [New, if_neg hor, e1, e2, configureButton, if_pos hlen, e3, hs]

/-- Witness for C3 on the concrete configuration opts3b with an environment
loading all three template paths. -/
theorem slackauth_C3_witness :
    New env3 opts3b = Except.error NewError.missingScopes :=
  slackauth_C3 env3 opts3b (by decide) (by decide) (by decide) (by decide) rfl
    ⟨GoTemplate.mk "ok", by decide⟩ ⟨GoTemplate.mk "ok", by decide⟩
    ⟨GoTemplate.mk "ok", by decide⟩

/-- C10: construction checks run in order: the required-field validation
first (for every environment), then the success template load, then the
error template load, then the button template load, and only then the
scopes check; in particular a set but unloadable button template with an
empty scopes list yields the template load error, not the missing-scopes
error. -/
theorem slackauth_C10 (env : TplEnv) (opts : Options) :
    ((opts.addr = "" ∨ opts.clientID = "" ∨ opts.clientSecret = "") →
      New env opts = Except.error NewError.invalidConfig) ∧
    (∀ e1, ¬(opts.addr = "" ∨ opts.clientID = "" ∨ opts.clientSecret = "") →
      readTemplate env opts.successTpl = Except.error e1 →
      New env opts = Except.error (NewError.tplError e1)) ∧
    (∀ t1 e2, ¬(opts.addr = "" ∨ opts.clientID = "" ∨ opts.clientSecret = "") →
      readTemplate env opts.successTpl = Except.ok t1 →
      readTemplate env opts.errorTpl = Except.error e2 →
      New env opts = Except.error (NewError.tplError e2)) ∧
    (∀ t1 t2 e3, ¬(opts.addr = "" ∨ opts.clientID = "" ∨ opts.clientSecret = "") →
      readTemplate env opts.successTpl = Except.ok t1 →
      readTemplate env opts.errorTpl = Except.ok t2 →
      opts.buttonTpl ≠ "" → opts.scopes = [] →
      readTemplate env opts.buttonTpl = Except.error e3 →
      New env opts = Except.error (NewError.tplError e3) ∧
        New env opts ≠ Except.error NewError.missingScopes) := by
  refine ⟨?_, ?_, ?_, ?_⟩
  · intro h
    simp only [New, if_pos h]
  · intro e1 hor h1
    simp [New, if_neg hor, h1]
  · intro t1 e2 hor h1 h2
    simp [New, if_neg hor, h1, h2]
  · intro t1 t2 e3 hor h1 h2 hbt hs h3
    have hlen : 0 < opts.buttonTpl.length := strLengthPos _ hbt
    have heq : New env opts = Except.error (NewError.tplError e3) := by
      simp [New, if_neg hor, h1, h2, configureButton, if_pos hlen, h3]
    refine ⟨heq, ?_⟩
    rw [heq]
    intro hcontra
    simp at hcontra

/-- Witness for C10 at the concrete scenario env3 and opts3: the button
template is set but does not load and the scopes list is empty, and New
returns the load error. -/
theorem slackauth_C10_witness :
    New env3 opts3 = Except.error (NewError.tplError "open button.html: no such file") ∧
    New env3 opts3 ≠ Except.error NewError.missingScopes :=
  (slackauth_C10 env3 opts3).2.2.2 (GoTemplate.mk "ok") (GoTemplate.mk "ok")
    "open button.html: no such file" (by decide) (by decide) (by decide) (by decide) rfl
    (by decide)

/-- C6: the server serves TLS exactly when both the certificate file path
and the key file path are non-empty. -/
theorem slackauth_C6 (s : slackAuth) :
    (runServer s).useTLS = true ↔ (s.certFile ≠ "" ∧ s.keyFile ≠ "") := by
  by_cases h : s.certFile ≠ "" ∧ s.keyFile ≠ ""
  · simp [runServer, if_pos h, h]
  · simp [runServer, if_neg h, h]

/-- Witness for C6: with both TLS files set the server runs TLS; with the
key file empty it does not. -/
theorem slackauth_C6_witness :
    (runServer svcTLS).useTLS = true ∧ (runServer svcPlain).useTLS ≠ true :=
  ⟨(slackauth_C6 svcTLS).mpr ⟨by decide, by decide⟩,
   fun h => absurd ((slackauth_C6 svcPlain).mp h).2 (by decide)⟩

/-- C9: the button handler is registered on the root route for every
service, and for a service without a configured button template every
button-route request reaches the nil-template Execute, modelled as a
panicking branch. -/
theorem slackauth_C9 (s : slackAuth) :
    ("/", HandlerId.button) ∈ (runServer s).routes ∧
    (s.buttonTpl = none → ∀ exec, buttonHandler exec s = HandlerOutcome.panicked) := by
  constructor
  · by_cases h : s.certFile ≠ "" ∧ s.keyFile ≠ ""
    · simp [runServer, if_pos h]
    · simp [runServer, if_neg h]
  · intro h exec
    simp [buttonHandler, h]

/-- Witness for C9 at the concrete service built without a button
template. -/
theorem slackauth_C9_witness :
    ("/", HandlerId.button) ∈ (runServer svcNoButton).routes ∧
    buttonHandler substExec svcNoButton = HandlerOutcome.panicked :=
  ⟨(slackauth_C9 svcNoButton).1, (slackauth_C9 svcNoButton).2 rfl substExec⟩

/-- C1: the callback handler runs the exchange on the code query parameter;
on exchange failure it responds 401, renders the error template with the
possibly-nil response and sends nothing on the channel; on exchange success
it pushes the result onto the channel and responds 200 with the rendered
success template, or 500 when rendering fails. -/
theorem slackauth_C1 (api : OAuthAPI) (exec : TplExec) (s : slackAuth) (r : Request) :
    (∀ presp msg,
      api s.clientID s.clientSecret (Request.FormValue r "code") s.debug =
        ExchangeOutcome.fail presp msg →
      effectiveStatus (authorizationHandler api exec s r).resp = 401 ∧
      (authorizationHandler api exec s r).sent = none ∧
      (∀ out, exec s.errorTpl (TplData.oauth presp) = Except.ok out →
        (authorizationHandler api exec s r).resp.body = out)) ∧
    (∀ resp,
      api s.clientID s.clientSecret (Request.FormValue r "code") s.debug =
        ExchangeOutcome.ok resp →
      (authorizationHandler api exec s r).sent = some resp ∧
      (∀ out, exec s.successTpl (TplData.oauth (some resp)) = Except.ok out →
        effectiveStatus (authorizationHandler api exec s r).resp = 200 ∧
        (authorizationHandler api exec s r).resp.body = out) ∧
      (∀ e, exec s.successTpl (TplData.oauth (some resp)) = Except.error e →
        effectiveStatus (authorizationHandler api exec s r).resp = 500)) := by
  constructor
  · intro presp msg hx
    have hh : authorizationHandler api exec s r =
        { resp := execResp (writeHeader Resp.empty 401) (exec s.errorTpl (TplData.oauth presp))
          sent := none } := by
      simp [authorizationHandler, hx]
    rw [hh]
    refine ⟨?_, rfl, ?_⟩
    · cases hexec : exec s.errorTpl (TplData.oauth presp) with
      | ok out => simp [execResp, hexec, write, writeHeader, Resp.empty, effectiveStatus]
      | error e => simp [execResp, hexec, writeHeader, Resp.empty, effectiveStatus]
    · intro out hexec
      simp [execResp, hexec, write, writeHeader, Resp.empty]
  · intro resp hx
    have hh : authorizationHandler api exec s r =
        { resp := execResp Resp.empty (exec s.successTpl (TplData.oauth (some resp)))
          sent := some resp } := by
      simp [authorizationHandler, hx]
    rw [hh]
    refine ⟨rfl, ?_, ?_⟩
    · intro out hexec
      simp [execResp, hexec, write, Resp.empty, effectiveStatus]
    · intro e hexec
      simp [execResp, hexec, writeHeader, Resp.empty, effectiveStatus]

/-- Witness for C1 with the exchange mock of the test suite: the invalid
code yields 401 and no send, a valid code yields 200, the rendered success
body, and a send of the exchanged result. -/
theorem slackauth_C1_witness :
    effectiveStatus (authorizationHandler apiMock verbatimExec svcNoButton reqBad).resp = 401 ∧
    (authorizationHandler apiMock verbatimExec svcNoButton reqBad).sent = none ∧
    effectiveStatus (authorizationHandler apiMock verbatimExec svcNoButton reqOk).resp = 200 ∧
    (authorizationHandler apiMock verbatimExec svcNoButton reqOk).sent =
      some { accessToken := "foo", teamName := "", teamID := "" } ∧
    (authorizationHandler apiMock verbatimExec svcNoButton reqOk).resp.body = "<h1>Hello</h1>" := by
  have h1 := (slackauth_C1 apiMock verbatimExec svcNoButton reqBad).1 none "invalid code" (by decide)
  have h2 := (slackauth_C1 apiMock verbatimExec svcNoButton reqOk).2
    { accessToken := "foo", teamName := "", teamID := "" } (by decide)
  exact ⟨h1.1, h1.2.1, (h2.2.1 "<h1>Hello</h1>" (by decide)).1, h2.1,
    (h2.2.1 "<h1>Hello</h1>" (by decide)).2⟩

/-- C8: nothing is sent on the channel when the exchange fails, and the
exchanged result is sent whenever the exchange succeeds, for every template
execution oracle, hence even when rendering the success template fails. -/
theorem slackauth_C8 (api : OAuthAPI) (exec : TplExec) (s : slackAuth) (r : Request) :
    (∀ presp msg,
      api s.clientID s.clientSecret (Request.FormValue r "code") s.debug =
        ExchangeOutcome.fail presp msg →
      (authorizationHandler api exec s r).sent = none) ∧
    (∀ resp,
      api s.clientID s.clientSecret (Request.FormValue r "code") s.debug =
        ExchangeOutcome.ok resp →
      (authorizationHandler api exec s r).sent = some resp) := by
  constructor
  · intro presp msg hx
    simp [authorizationHandler, hx]
  · intro resp hx
    simp [authorizationHandler, hx]

/-- Witness for C8 under an always-failing renderer: the failed exchange
sends nothing, while the successful exchange sends its result even though
rendering failed (status 500). -/
theorem slackauth_C8_witness :
    (authorizationHandler apiMock failExec svcNoButton reqBad).sent = none ∧
    (authorizationHandler apiMock failExec svcNoButton reqOk).sent =
      some { accessToken := "foo", teamName := "", teamID := "" } ∧
    effectiveStatus (authorizationHandler apiMock failExec svcNoButton reqOk).resp = 500 := by
  refine ⟨(slackauth_C8 apiMock failExec svcNoButton reqBad).1 none "invalid code" (by decide),
    (slackauth_C8 apiMock failExec svcNoButton reqOk).2
      { accessToken := "foo", teamName := "", teamID := "" } (by decide), by decide⟩

/-- A successful configureButton with a set button template path loads the
template, requires a non-empty scopes list, and stores the comma-joined
scopes and the template. -/
theorem configureButton_ok (env : TplEnv) (base : slackAuth) (buttonTpl : String)
    (scopes : List String) (svc : slackAuth) (hlen : 0 < buttonTpl.length)
    (h : configureButton env base buttonTpl scopes = Except.ok svc) :
    ∃ t, readTemplate env buttonTpl = Except.ok t ∧ scopes ≠ [] ∧
      svc = { base with scopes := String.intercalate "," scopes, buttonTpl := some t } := by
  rw [configureButton, if_pos hlen] at h
  cases hr : readTemplate env buttonTpl with
  | error e =>
    rw [hr] at h
    exact absurd h (by simp)
  | ok t =>
    simp only [hr] at h
    by_cases hsc : scopes.length = 0
    · rw [if_pos hsc] at h
      exact absurd h (by simp)
    · rw [if_neg hsc] at h
      refine ⟨t, rfl, fun hnil => hsc (by simp [hnil]), ?_⟩
      injection h with h2
      exact h2.symm

/-- A successful New loads the success template, then the error template,
and hands the assembled base service to configureButton. -/
theorem New_ok (env : TplEnv) (opts : Options) (svc : slackAuth)
    (h : New env opts = Except.ok svc) :
    ∃ t1 t2, readTemplate env opts.successTpl = Except.ok t1 ∧
      readTemplate env opts.errorTpl = Except.ok t2 ∧
      configureButton env
        { clientID := opts.clientID, clientSecret := opts.clientSecret, addr := opts.addr
          certFile := opts.certFile, keyFile := opts.keyFile, successTpl := t1, errorTpl := t2
          debug := opts.debug, buttonTpl := none, scopes := "" }
        opts.buttonTpl opts.scopes = Except.ok svc := by
  by_cases hor : opts.addr = "" ∨ opts.clientID = "" ∨ opts.clientSecret = ""
  · rw [New, if_pos hor] at h
    exact absurd h (by simp)
  · rw [New, if_neg hor] at h
    cases h1 : readTemplate env opts.successTpl with
    | error e =>
      rw [h1] at h
      exact absurd h (by simp)
    | ok t1 =>
      rw [h1] at h
      cases h2 : readTemplate env opts.errorTpl with
      | error e =>
        rw [h2] at h
        exact absurd h (by simp)
      | ok t2 =>
        rw [h2] at h
        exact ⟨t1, t2, rfl, rfl, h⟩

/-- C5: every service built with a button template renders the button
template with the map binding Scopes to the comma-joined configured scope
list and ClientId to the configured client id; in the concrete test
scenario (scopes bot and commands, client id client-id) the rendered page
contains scope=bot,commands and client_id=client-id. -/
theorem slackauth_C5 :
    (∀ env opts svc, New env opts = Except.ok svc → opts.buttonTpl ≠ "" →
      svc.scopes = String.intercalate "," opts.scopes ∧
      svc.clientID = opts.clientID ∧
      ∃ t, svc.buttonTpl = some t ∧
        ∀ exec, buttonHandler exec svc =
          HandlerOutcome.responded (execResp Resp.empty
            (exec t (TplData.strmap
              [("Scopes", String.intercalate "," opts.scopes),
               ("ClientId", opts.clientID)])))) ∧
    (∃ w, buttonHandler substExec svcB = HandlerOutcome.responded w ∧
      effectiveStatus w = 200 ∧
      (∃ a b, w.body = a ++ "scope=bot,commands" ++ b) ∧
      (∃ a b, w.body = a ++ "client_id=client-id" ++ b)) := by
  constructor
  · intro env opts svc hnew hbt
    obtain ⟨t1, t2, h1, h2, hcfg⟩ := New_ok env opts svc hnew
    obtain ⟨t, hrt, hsc, hsvc⟩ :=
      configureButton_ok env _ opts.buttonTpl opts.scopes svc (strLengthPos _ hbt) hcfg
    subst hsvc
    exact ⟨rfl, rfl, t, rfl, fun exec => rfl⟩
  · refine ⟨Resp.mk (some 200) renderedButtonPage,
      by decide, by decide,
      ⟨"ADD ME: <a href=\"https://slack.com/oauth/authorize?",
       "&client_id=client-id\"> SLACK BUTTON </a>", by decide⟩,
      ⟨"ADD ME: <a href=\"https://slack.com/oauth/authorize?scope=bot,commands&",
       "\"> SLACK BUTTON </a>", by decide⟩⟩

/-- Witness for C5 at the concrete test configuration. -/
theorem slackauth_C5_witness :
    New envB optsB = Except.ok svcB ∧
    svcB.scopes = String.intercalate "," optsB.scopes ∧
    svcB.clientID = optsB.clientID := by
  have h := (slackauth_C5).1 envB optsB svcB (by decide) (by decide)
  exact ⟨by decide, h.1, h.2.1⟩

/-- C4: in every run of the notifier machine, a result dispatched by the
worker while no callback is registered lands in the warning log and (with
distinct send ids) is never delivered to any callback, also not to one
registered later; OnAuth replaces the registered callback; and a work step
dispatches the queue head to exactly the callback registered at that
moment, or warns when none is registered. -/
theorem slackauth_C4 (tr : List NotifierEv) (st : NotifierState)
    (h : notifierRun initNotifier tr = some st) :
    (∀ i, i ∈ st.warned → st.accepted.Nodup → ∀ c, (c, i) ∉ st.delivered) ∧
    (∀ cb, notifierRun initNotifier (tr ++ [NotifierEv.onAuth cb]) =
      some { st with callback := cb }) ∧
    (∀ n r rest c, st.queue = (n, r) :: rest → st.callback = some c →
      notifierRun initNotifier (tr ++ [NotifierEv.work]) =
        some { st with queue := rest, delivered := st.delivered ++ [(c, n)],
                       processed := st.processed ++ [n] }) ∧
    (∀ n r rest, st.queue = (n, r) :: rest → st.callback = none →
      notifierRun initNotifier (tr ++ [NotifierEv.work]) =
        some { st with queue := rest, warned := st.warned ++ [n],
                       processed := st.processed ++ [n] }) := by
  obtain ⟨hcap, hacc, hdel, hwarn, hcount⟩ :=
    notifierInv_run initNotifier st tr notifierInv_init h
  refine ⟨?_, ?_, ?_, ?_⟩
  · intro i hi hnd c hmem
    have hpn : st.processed.Nodup := by
      rw [hacc] at hnd
      exact hnd.of_append_left
    have h1 : 0 < st.warned.count i := List.count_pos_iff.mpr hi
    have h2 : 0 < (st.delivered.map Prod.snd).count i :=
      List.count_pos_iff.mpr (List.mem_map_of_mem Prod.snd hmem)
    have h3 := hcount i
    have h4 : st.processed.count i ≤ 1 := List.nodup_iff_count_le_one.mp hpn i
    omega
  · intro cb
    rw [notifierRun_append, h]
    simp [notifierRun, notifierStep]
  · intro n r rest c hq hcb
    rw [notifierRun_append, h]
    simp [notifierRun, notifierStep, hq, hcb]
  · intro n r rest hq hcb
    rw [notifierRun_append, h]
    simp [notifierRun, notifierStep, hq, hcb]

/-- Witness for C4 on a concrete trace: the first result is dispatched with
no callback registered and ends up warned, never delivered; a later OnAuth
replaces the callback; a further work step dispatches the second result to
the currently registered callback. -/
theorem slackauth_C4_witness :
    notifierRun initNotifier trC4 = some stC4 ∧
    ((1, 0) ∉ stC4.delivered) ∧
    notifierRun initNotifier (trC4 ++ [NotifierEv.onAuth (some 2)]) =
      some { stC4 with callback := some 2 } ∧
    notifierRun initNotifier (trC4 ++ [NotifierEv.work]) =
      some { stC4 with queue := [], delivered := [(1, 1)], processed := [0, 1] } := by
  have h := slackauth_C4 trC4 stC4 (by decide)
  refine ⟨by decide, h.1 0 (by decide) (by decide) 1, h.2.1 (some 2), ?_⟩
  have h3 := h.2.2.1 1 respB [] 1 (by decide) (by decide)
  rw [h3]
  decide

/-- C7: the channel capacity is one; in every reachable state the channel
holds at most one pending result, the accepted ids are exactly the
processed ids followed by the still-queued ids (nothing is ever dropped),
deliveries occur in acceptance order, and a send on a full channel is not
enabled, so the producing handler blocks rather than losing the result. -/
theorem slackauth_C7 (tr : List NotifierEv) (st : NotifierState)
    (h : notifierRun initNotifier tr = some st) :
    authsChanCapacity = 1 ∧
    st.queue.length ≤ authsChanCapacity ∧
    st.accepted = st.processed ++ st.queue.map Prod.fst ∧
    (st.delivered.map Prod.snd).Sublist st.accepted ∧
    (∀ n r, st.queue ≠ [] → notifierStep st (NotifierEv.send n r) = none) := by
  obtain ⟨hcap, hacc, hdel, hwarn, hcount⟩ :=
    notifierInv_run initNotifier st tr notifierInv_init h
  refine ⟨rfl, hcap, hacc, ?_, ?_⟩
  · refine hdel.trans ?_
    rw [hacc]
    exact List.sublist_append_left _ _
  · intro n r hne
    have hlp : 0 < st.queue.length := List.length_pos.mpr hne
    have hnl : ¬(st.queue.length < authsChanCapacity) := by
      simp only [authsChanCapacity]
      omega
    simp [notifierStep, if_neg hnl]

/-- Witness for C7 on a concrete trace leaving one result queued: the
invariants hold and a further send is not enabled. -/
theorem slackauth_C7_witness :
    notifierRun initNotifier trC7 = some stC7 ∧
    stC7.queue.length ≤ authsChanCapacity ∧
    stC7.accepted = stC7.processed ++ stC7.queue.map Prod.fst ∧
    (stC7.delivered.map Prod.snd).Sublist stC7.accepted ∧
    notifierStep stC7 (NotifierEv.send 2 respA) = none := by
  have h := slackauth_C7 trC7 stC7 (by decide)
  exact ⟨by decide, h.2.1, h.2.2.1, h.2.2.2.1, h.2.2.2.2 2 respA (by decide)⟩
